import Mathlib

/-!
A shallow embedding of `bot.py` (an IP-geolocation chat bot) and proofs about it.

Modelling conventions:
* Python strings are Lean `String`s; where character-level processing matters
  (`str.split('.')`, `int(...)`, `str.strip()`, `str.lower()`) we work on `List Char`
  with functions that mirror the Python semantics on the character sets the program
  actually meets (ASCII digits/whitespace, ASCII letters, Russian Cyrillic letters).
* JSON scalar values are the inductive `JVal`; provider responses are flat
  association lists `List (String × JVal)` (every field the program reads is a
  scalar of a flat object).  `dict.get` becomes `jget`, subscripting (`d[k]`,
  which can raise `KeyError`) becomes `jitem`, Python truthiness becomes
  `jtruthy`/`pytruthy`.
* The two outbound HTTP calls (`requests.get(...).json()`) are oracles of type
  `Except PyErr (List (String × JVal))`: either a decoded JSON object or a raised
  exception.  `PyErr.requestException` stands for
  `requests.exceptions.RequestException` (which in current `requests` also covers
  `.json()` decode failures); the other constructors are non-request exceptions.
* Chat-transport sends (`message.answer`, `answer_document`, `send_chat_action`)
  may each raise; the oracle `TgEnv` decides which succeed.  A handler run is an
  `Outcome`: the list of externally visible `Event`s that happened, the final set
  of files on disk, and an optional uncaught exception.
* `folium` is external: its effect is modelled as the single artifact file write
  (`Event.saveFile`) that `area.save(map_filename)` performs.
-/

/-! ## JSON scalar values and Python value helpers -/

/-- A scalar JSON value as decoded by `response.json()`.  All fields the program
reads from either provider are scalars of a flat object, so nested arrays and
objects are not modelled. -/
inductive JVal where
  | jnull
  | jbool (b : Bool)
  | jnum (q : ℚ)
  | jstr (s : String)
deriving DecidableEq, Repr

/-- `d.get(k)` on a decoded JSON object (first binding wins; provider objects have
unique keys). -/
def jget : List (String × JVal) → String → Option JVal
  | [], _ => none
  | (k, v) :: rest, key => if k = key then some v else jget rest key

/-- Python truthiness of a JSON scalar: `None`, `False`, `0`, `0.0` and `""` are
falsy, everything else is truthy. -/
def jtruthy : JVal → Bool
  | JVal.jnull => false
  | JVal.jbool b => b
  | JVal.jnum q => q ≠ 0
  | JVal.jstr s => s ≠ ""

/-- Truthiness of a `d.get(k)` result (`None` for a missing key is falsy). -/
def pytruthy : Option JVal → Bool
  | none => false
  | some v => jtruthy v

/-- Decimal rendering of a JSON number, as used by `str()` inside f-strings.  It
agrees with Python on integral floats (`37.0`); no claim depends on the
non-integral case. -/
def ratStr (q : ℚ) : String :=
  if q.den = 1 then toString q.num ++ ".0" else toString q.num ++ "/" ++ toString q.den

/-- Python `str()` of a JSON scalar. -/
def pyStr : JVal → String
  | JVal.jnull => "None"
  | JVal.jbool b => if b then "True" else "False"
  | JVal.jnum q => ratStr q
  | JVal.jstr s => s

/-- Python `str()` of a value that may be `None` (a `d.get(k)` result). -/
def pyStrOpt : Option JVal → String
  | none => "None"
  | some v => pyStr v

/-- Python exceptions the program can meet.  `requestException` is
`requests.exceptions.RequestException` (network errors, timeouts, and — in
current `requests` — JSON decode errors of `.json()`); `keyError` is a failed
`d[k]` subscript; `otherException` is any other exception. -/
inductive PyErr where
  | requestException (msg : String)
  | keyError (key : String)
  | otherException (msg : String)
deriving DecidableEq, Repr

/-- Python `str(e)` of an exception (a `KeyError` prints its key in quotes). -/
def PyErr.str : PyErr → String
  | PyErr.requestException m => m
  | PyErr.keyError k => "'" ++ k ++ "'"
  | PyErr.otherException m => m

/-- `d[k]` subscripting on a decoded JSON object: raises `KeyError` when the key
is absent. -/
def jitem (resp : List (String × JVal)) (k : String) : Except PyErr JVal :=
  match jget resp k with
  | some v => Except.ok v
  | none => Except.error (PyErr.keyError k)

/-! ## Python integer parsing and string helpers (for `is_valid_ip`) -/

/-- ASCII whitespace stripped by Python `int(str)` and `str.strip()`. -/
def isPyWs (c : Char) : Bool :=
  c = ' ' || c = '\t' || c = '\n' || c = '\r' || c = '\x0b' || c = '\x0c'

/-- Strip whitespace from both ends of a character list (Python `str.strip()`). -/
def stripWs (l : List Char) : List Char :=
  ((l.dropWhile isPyWs).reverse.dropWhile isPyWs).reverse

/-- Numeric value of an ASCII digit. -/
def digitVal (c : Char) : Nat := c.toNat - 48

/-- Continue parsing a digit run after at least one digit: further digits, with
single underscores allowed between digits (Python 3 `int` grammar). -/
def pyDigitsAux : Nat → List Char → Option Nat
  | acc, [] => some acc
  | acc, '_' :: c :: rest =>
    if c.isDigit then pyDigitsAux (acc * 10 + digitVal c) rest else none
  | _, ['_'] => none
  | acc, c :: rest =>
    if c.isDigit then pyDigitsAux (acc * 10 + digitVal c) rest else none

/-- Parse a nonempty digit run (with embedded underscores) to its value. -/
def pyDigits : List Char → Option Nat
  | [] => none
  | c :: rest => if c.isDigit then pyDigitsAux (digitVal c) rest else none

/-- Python `int(str)` on a character list: optional surrounding whitespace,
optional sign, then a digit run.  Returns `none` where Python raises
`ValueError`.  (Non-ASCII digit alphabets are not modelled.) -/
def pyIntList (l : List Char) : Option Int :=
  match stripWs l with
  | '+' :: rest => (pyDigits rest).map Int.ofNat
  | '-' :: rest => (pyDigits rest).map (fun n => -(n : Int))
  | cs => (pyDigits cs).map Int.ofNat

/-- Python `str.split(sep)` for a single-character separator. -/
def splitOnChar (sep : Char) : List Char → List (List Char)
  | [] => [[]]
  | c :: rest =>
    if c = sep then [] :: splitOnChar sep rest
    else
      match splitOnChar sep rest with
      | [] => [[c]]
      | h :: t => (c :: h) :: t

/-- One segment check of `is_valid_ip`: `0 <= int(part) <= 255`, false when
`int` raises `ValueError`. -/
def segOk (p : List Char) : Bool :=
  match pyIntList p with
  | some n => decide (0 ≤ n) && decide (n ≤ 255)
  | none => false

/-- `is_valid_ip` from `bot.py`: split on `'.'`, require exactly four parts,
each an integer in `[0, 255]`; any `ValueError` from `int` yields `False`. -/
def is_valid_ip (ip : String) : Bool :=
  let parts := splitOnChar '.' ip.data
  if parts.length ≠ 4 then false
  else parts.all segOk

/-- The spec's notion of one valid segment: parseable as a base-10 integer
(under the reference's parsing rule) lying in `[0, 255]`. -/
def segSpec (p : List Char) : Prop :=
  ∃ n : Int, pyIntList p = some n ∧ 0 ≤ n ∧ n ≤ 255

/-- The spec's validity notion, stated independently of `split`: the string is
exactly four segments joined by three dots, no segment contains a dot, and each
segment is a base-10 integer in `[0, 255]`. -/
def valid_ip_spec (s : String) : Prop :=
  ∃ a b c d : List Char,
    s.data = a ++ '.' :: (b ++ '.' :: (c ++ '.' :: d)) ∧
    ('.' ∉ a ∧ '.' ∉ b ∧ '.' ∉ c ∧ '.' ∉ d) ∧
    segSpec a ∧ segSpec b ∧ segSpec c ∧ segSpec d

/-- Join segments with a separator: left inverse of `splitOnChar`. -/
def joinSep (sep : Char) : List (List Char) → List Char
  | [] => []
  | [p] => p
  | p :: ps => p ++ sep :: joinSep sep ps

/-! ## The bot: events, oracles, and `get_ip_info` -/

/-- An externally visible action of the program: an outbound HTTP request, a
chat-transport side effect (typing indicator, text message, document with
caption), or a filesystem effect on the artifact file. -/
inductive Event where
  | httpGet (url : String)
  | typing
  | sendText (text : String)
  | sendDoc (filename : String) (caption : String)
  | saveFile (filename : String)
  | removeFile (filename : String)
deriving DecidableEq, Repr

/-- Apply one event to the set of files on disk: `saveFile` creates the file,
`removeFile` deletes it, everything else leaves the filesystem unchanged. -/
def applyEvent (fs : List String) : Event → List String
  | Event.saveFile fn => if fn ∈ fs then fs else fs ++ [fn]
  | Event.removeFile fn => fs.filter (fun g => g != fn)
  | _ => fs

/-- Fold `applyEvent` over a trace. -/
def applyEvents (fs : List String) (evs : List Event) : List String :=
  evs.foldl applyEvent fs

/-- The geolocation provider URL for an IP (`f'http://ip-api.com/json/{ip}'`). -/
def geoUrl (ip : JVal) : String := "http://ip-api.com/json/" ++ pyStr ip

/-- The self-IP provider URL. -/
def ipifyUrl : String := "https://api.ipify.org?format=json"

/-- The `data` dictionary `get_ip_info` builds from a successful response
(insertion order preserved; values are `response.get(...)` results, so a missing
field is `none`, i.e. Python `None`). -/
def buildData (resp : List (String × JVal)) : List (String × Option JVal) :=
  [("IP", jget resp "query"),
   ("Интернет провайдер", jget resp "isp"),
   ("Страна", jget resp "country"),
   ("Регион", jget resp "regionName"),
   ("Город", jget resp "city"),
   ("Индекс", jget resp "zip"),
   ("Широта", jget resp "lat"),
   ("Долгота", jget resp "lon")]

/-- The `try`-block of `get_ip_info` after the fetch: provider-failure check,
record construction, and — when both coordinates are truthy — the folium map
render and save (`folium.Map`/`folium.Marker` are external; their observable
effect is the artifact save).  Subscripts `response['lat']`, `response['lon']`,
`response['query']` can raise `KeyError`. -/
def get_ip_info_body (resp : List (String × JVal)) :
    Except PyErr (List Event × (Option (List (String × Option JVal)) × Option JVal)) :=
  if jget resp "status" = some (JVal.jstr "fail") then
    Except.ok ([], (none, some ((jget resp "message").getD (JVal.jstr "Unknown error"))))
  else
    let data := buildData resp
    if pytruthy (jget resp "lat") && pytruthy (jget resp "lon") then
      match jitem resp "lat", jitem resp "lon", jitem resp "query" with
      | Except.error e, _, _ => Except.error e
      | Except.ok _, Except.error e, _ => Except.error e
      | Except.ok _, Except.ok _, Except.error e => Except.error e
      | Except.ok _, Except.ok _, Except.ok q =>
        let map_filename := "ip_map_" ++ pyStr q ++ ".html"
        Except.ok ([Event.saveFile map_filename], (some data, some (JVal.jstr map_filename)))
    else
      Except.ok ([], (some data, none))

/-- The fetch step `requests.get(f'http://ip-api.com/json/{ip}', timeout=10).json()`
followed by the `try`-block body; the fetch oracle decides the HTTP outcome. -/
def get_ip_info_run (fetch : Except PyErr (List (String × JVal))) :
    Except PyErr (List Event × (Option (List (String × Option JVal)) × Option JVal)) :=
  match fetch with
  | Except.ok resp => get_ip_info_body resp
  | Except.error e => Except.error e

/-- The network-error message `f'Ошибка сети: {str(e)}'`. -/
def netErrMsg (e : String) : String := "Ошибка сети: " ++ e

/-- The generic error message `f'Произошла ошибка: {str(e)}'`. -/
def genErrMsg (e : String) : String := "Произошла ошибка: " ++ e

/-- `get_ip_info` from `bot.py`: one HTTP GET to the geo provider, then either a
provider-failure result, a record (with an artifact save and filename when both
coordinates are truthy), or a caught exception mapped to an error message:
`RequestException` to the network message, anything else to the generic one.
Returns the emitted events together with the Python return tuple
`(data | None, message | filename | None)`. -/
def get_ip_info (fetch : Except PyErr (List (String × JVal))) (ip : JVal) :
    List Event × (Option (List (String × Option JVal)) × Option JVal) :=
  let req : List Event := [Event.httpGet (geoUrl ip)]
  match get_ip_info_run fetch with
  | Except.ok (evs, result) => (req ++ evs, result)
  | Except.error (PyErr.requestException e) =>
    (req, (none, some (JVal.jstr (netErrMsg e))))
  | Except.error e =>
    (req, (none, some (JVal.jstr (genErrMsg (PyErr.str e)))))

/-! ## The bot: conversation handlers -/

/-- Oracle for the chat transport: which sends succeed.  `text_ok txt` is the
outcome of `message.answer(txt)`, `doc_ok fn` of `answer_document` on that file,
`typing_ok` of `send_chat_action`. -/
structure TgEnv where
  typing_ok : Bool
  text_ok : String → Bool
  doc_ok : String → Bool

/-- The chat transport with every send succeeding. -/
def allOk : TgEnv := { typing_ok := true, text_ok := fun _ => true, doc_ok := fun _ => true }

/-- The observable result of running one handler: the events that happened, the
files on disk afterwards, and the uncaught exception if one propagated to the
event loop (`none` means the handler returned normally). -/
structure Outcome where
  events : List Event
  fs : List String
  raised : Option String
deriving DecidableEq, Repr

/-- Marker for an uncaught `send_chat_action` failure. -/
def typingRaised : String := "send_chat_action raised"

/-- Marker for an uncaught `message.answer` failure. -/
def answerRaised : String := "message.answer raised"

/-- Marker for an uncaught `message.answer_document` failure. -/
def docRaised : String := "answer_document raised"

/-- `await message.answer(txt)` as the final action of a handler path: on
success the text is sent and the handler returns; on failure the exception
propagates. -/
def answerOr (env : TgEnv) (pre : List Event) (txt : String) (fs : List String) : Outcome :=
  if env.text_ok txt then ⟨pre ++ [Event.sendText txt], fs, none⟩
  else ⟨pre, fs, some answerRaised⟩

/-- The error reply `f"❌ {map_filename}"` sent when `get_ip_info` returns no
record (its second component is then the failure message). -/
def errText (msg : Option JVal) : String := "❌ " ++ pyStrOpt msg

/-- The formatted info text: header plus one `<b>k:</b> <code>v</code>` line per
record field, joined by newlines. -/
def info_text (data : List (String × Option JVal)) : String :=
  "<b>🔍 Информация об IP:</b>\n\n" ++
    String.intercalate "\n"
      (data.map (fun kv => "<b>" ++ kv.1 ++ ":</b> <code>" ++ pyStrOpt kv.2 ++ "</code>"))

/-- The warning suffix appended when no map artifact was produced. -/
def mapWarn : String := "\n\n⚠ <i>Не удалось создать карту для этого IP</i>"

/-- The caption of the map attachment. -/
def docCaption : String := "📍 Карта местоположения"

/-- The `finally` block: `if os.path.exists(map_filename): os.remove(map_filename)`. -/
def cleanupEvents (fs : List String) (fn : String) : List Event :=
  if fn ∈ fs then [Event.removeFile fn] else []

/-- `process_ip_request` from `bot.py`: typing indicator, `get_ip_info`, then
either the error reply (no record), or the formatted text plus the map document
with the artifact deleted in a `finally` block (map produced), or a single
message with the warning suffix (no map).  Exceptions of the chat-transport
sends propagate; the `finally` deletion runs even when a send in the `try`
block failed. -/
def process_ip_request (env : TgEnv) (fetch : Except PyErr (List (String × JVal)))
    (ip : JVal) (fs0 : List String) : Outcome :=
  if env.typing_ok then
    let r := get_ip_info fetch ip
    let pre := Event.typing :: r.1
    let fs1 := applyEvents fs0 pre
    match r.2 with
    | (none, msg) => answerOr env pre (errText msg) fs1
    | (some data, mfn) =>
      let itext := info_text data
      if pytruthy mfn then
        let fn := pyStrOpt mfn
        let cleanup := cleanupEvents fs1 fn
        let fs2 := applyEvents fs1 cleanup
        if env.text_ok itext then
          if env.doc_ok fn then
            ⟨pre ++ [Event.sendText itext, Event.sendDoc fn docCaption] ++ cleanup, fs2, none⟩
          else
            ⟨pre ++ [Event.sendText itext] ++ cleanup, fs2, some docRaised⟩
        else
          ⟨pre ++ cleanup, fs2, some answerRaised⟩
      else
        answerOr env pre (itext ++ mapWarn) fs1
  else ⟨[], fs0, some typingRaised⟩

/-- The manual-entry reply of `cmd_my_ip` on a network failure (the two adjacent
source literals concatenate to this single string). -/
def manualMsg : String :=
  "Не удалось определить ваш IP автоматически. Пожалуйста, введите IP-адрес вручную."

/-- The reply of `cmd_my_ip` when the self-IP response has no usable `ip` field. -/
def noIpMsg : String := "Не удалось определить ваш IP-адрес."

/-- `cmd_my_ip` from `bot.py`: fetch the caller's IP from ipify inside a
`try/except requests.exceptions.RequestException`; on a truthy `ip` field run
`process_ip_request` with that value, on a falsy one send `noIpMsg`, on a
caught request exception send `manualMsg`.  A non-request exception of the
fetch would propagate (none occurs with current `requests`, see `PyErr`). -/
def cmd_my_ip (env : TgEnv) (ipifyFetch geoFetch : Except PyErr (List (String × JVal)))
    (fs0 : List String) : Outcome :=
  let req : List Event := [Event.httpGet ipifyUrl]
  match ipifyFetch with
  | Except.ok resp =>
    match jget resp "ip" with
    | some v =>
      if jtruthy v then
        let o := process_ip_request env geoFetch v fs0
        ⟨req ++ o.events, o.fs, o.raised⟩
      else answerOr env req noIpMsg fs0
    | none => answerOr env req noIpMsg fs0
  | Except.error (PyErr.requestException _) => answerOr env req manualMsg fs0
  | Except.error e => ⟨req, fs0, some (PyErr.str e)⟩

/-- `process_ip` from `bot.py` (free-text IP handler):
`process_ip_request(message, message.text.strip())`. -/
def process_ip (env : TgEnv) (geoFetch : Except PyErr (List (String × JVal)))
    (text : String) (fs0 : List String) : Outcome :=
  process_ip_request env geoFetch (JVal.jstr (String.mk (stripWs text.data))) fs0

/-- Lowercase one character as Python `str.lower()` does, on the alphabets the
program compares against: ASCII letters and Russian Cyrillic (А–Я, Ё). -/
def pyLowerChar (c : Char) : Char :=
  if 'A' ≤ c ∧ c ≤ 'Z' then Char.ofNat (c.toNat + 32)
  else if 'А' ≤ c ∧ c ≤ 'Я' then Char.ofNat (c.toNat + 32)
  else if c = 'Ё' then 'ё'
  else c

/-- Python `str.lower()` on the modelled alphabets. -/
def pyLower (s : String) : String := String.mk (s.data.map pyLowerChar)

/-- Does the character list begin with the given pattern? -/
def listStartsWith : List Char → List Char → Bool
  | _, [] => true
  | [], _ :: _ => false
  | c :: cs, p :: ps => c = p && listStartsWith cs ps

/-- The aiogram `Command("start")` filter: the text is the `/start` command,
optionally with a bot mention and/or arguments. -/
def isStartCommand (t : String) : Bool :=
  t = "/start" || listStartsWith t.data "/start ".data || listStartsWith t.data "/start@".data

/-- Which registered handler an inbound message is dispatched to. -/
inductive HandlerId where
  | start
  | help
  | myip
  | ipinput
deriving DecidableEq, Repr

/-- The aiogram dispatcher over the four registered handlers, evaluated in
registration order; each lambda filter first requires `message.text` truthy.
`none` means no filter matched and the message is ignored. -/
def dispatch (text : Option String) : Option HandlerId :=
  match text with
  | none => none
  | some t =>
    if isStartCommand t then some HandlerId.start
    else if t ≠ "" ∧ pyLower t = "помощь" then some HandlerId.help
    else if t ≠ "" ∧ pyLower t = "мой ip" then some HandlerId.myip
    else if t ≠ "" ∧ is_valid_ip t then some HandlerId.ipinput
    else none

/-- The `/start` greeting. -/
def startGreeting : String :=
  "<b>Привет!</b> Я бот для получения информации об IP-адресах.\nПросто отправь мне любой IP-адрес или нажми кнопку ниже."

/-- The help text of `cmd_help`. -/
def helpText : String :=
  "<b>📌 Как пользоваться ботом:</b>\n\n1. Отправьте мне <i>IPv4-адрес</i> (например, 8.8.8.8)\n2. Или нажмите кнопку <b>'Мой IP'</b>\n\nЯ покажу информацию о местоположении и пришлю карту.\nКарту можешь открыть с телефона или ПК в любом браузере"

/-- One inbound text message through the dispatcher and the matched handler
(keyboard markup of the start/help replies is carried by the chat transport and
not modelled beyond the text send). -/
def handleMessage (env : TgEnv) (ipifyFetch geoFetch : Except PyErr (List (String × JVal)))
    (text : Option String) (fs0 : List String) : Outcome :=
  match dispatch text with
  | some HandlerId.start => answerOr env [] startGreeting fs0
  | some HandlerId.help => answerOr env [] helpText fs0
  | some HandlerId.myip => cmd_my_ip env ipifyFetch geoFetch fs0
  | some HandlerId.ipinput => process_ip env geoFetch (text.getD "") fs0
  | none => ⟨[], fs0, none⟩

/-! ## Concrete provider responses used by counterexamples and witnesses -/

/-- A successful provider response whose coordinates are present but include a
zero (the equator): a counterexample input for C2. -/
def respZeroLat : List (String × JVal) :=
  [("status", JVal.jstr "success"), ("query", JVal.jstr "1.1.1.1"),
   ("lat", JVal.jnum 0), ("lon", JVal.jnum 5)]

/-- A successful provider response whose echoed `query` field differs from the
IP that was looked up: a counterexample input for C8. -/
def respEcho99 : List (String × JVal) :=
  [("status", JVal.jstr "success"), ("query", JVal.jstr "9.9.9.9"),
   ("lat", JVal.jnum 50), ("lon", JVal.jnum 40)]

/-- The spec's example of a successful provider response (lat 37, lon -122):
concrete input for the witnesses. -/
def respGood37 : List (String × JVal) :=
  [("status", JVal.jstr "success"), ("query", JVal.jstr "8.8.8.8"),
   ("isp", JVal.jstr "Google LLC"), ("country", JVal.jstr "United States"),
   ("regionName", JVal.jstr "California"), ("city", JVal.jstr "Mountain View"),
   ("zip", JVal.jstr "94043"), ("lat", JVal.jnum 37), ("lon", JVal.jnum (-122))]

/-- A provider-failure response ("invalid query"): witness input. -/
def respFailW : List (String × JVal) :=
  [("status", JVal.jstr "fail"), ("message", JVal.jstr "invalid query")]

/-- A successful response with truthy coordinates but no `query` field: witness
input for the processing-exception case. -/
def respNoQueryW : List (String × JVal) :=
  [("status", JVal.jstr "success"), ("lat", JVal.jnum 1), ("lon", JVal.jnum 2)]

/-- A self-IP response with a usable `ip` field: witness input. -/
def respIpW : List (String × JVal) := [("ip", JVal.jstr "8.8.8.8")]

/-- A self-IP response whose `ip` field is the empty string: witness input. -/
def respEmptyIpW : List (String × JVal) := [("ip", JVal.jstr "")]

/-- The outcomes `requests.get(...).json()` can actually have: a decoded object
or a raised `RequestException` (JSON decode errors included, see `PyErr`). -/
def fetchPossible (f : Except PyErr (List (String × JVal))) : Prop :=
  ∀ e, f = Except.error e → ∃ m, e = PyErr.requestException m

/-! ## Helper lemmas -/

theorem splitOnChar_ne_nil (sep : Char) (l : List Char) : splitOnChar sep l ≠ [] := by
  induction l with
  | nil => simp [splitOnChar]
  | cons c rest ih =>
    simp only [splitOnChar]
    split
    · simp
    · cases h : splitOnChar sep rest with
      | nil => simp
      | cons h t => simp

theorem joinSep_cons_cons (sep : Char) (c : Char) (h : List Char) (t : List (List Char)) :
    joinSep sep ((c :: h) :: t) = c :: joinSep sep (h :: t) := by
  cases t with
  | nil => rfl
  | cons h2 t2 => simp [joinSep]

theorem joinSep_nil_cons (sep : Char) (r : List (List Char)) (hr : r ≠ []) :
    joinSep sep ([] :: r) = sep :: joinSep sep r := by
  cases r with
  | nil => exact absurd rfl hr
  | cons h t => simp [joinSep]

theorem joinSep_splitOnChar (sep : Char) (l : List Char) :
    joinSep sep (splitOnChar sep l) = l := by
  induction l with
  | nil => rfl
  | cons c rest ih =>
    simp only [splitOnChar]
    split
    · rename_i hc
      rw [joinSep_nil_cons sep _ (splitOnChar_ne_nil sep rest), ih, hc]
    · rename_i hc
      cases h : splitOnChar sep rest with
      | nil => exact absurd h (splitOnChar_ne_nil sep rest)
      | cons hd tl =>
        rw [h] at ih
        rw [joinSep_cons_cons, ih]

theorem splitOnChar_not_mem (sep : Char) (l : List Char) :
    ∀ p ∈ splitOnChar sep l, sep ∉ p := by
  induction l with
  | nil =>
    intro p hp
    simp [splitOnChar] at hp
    simp [hp]
  | cons c rest ih =>
    intro p hp
    simp only [splitOnChar] at hp
    by_cases hc : c = sep
    · rw [if_pos hc] at hp
      rcases List.mem_cons.mp hp with h1 | h2
      · simp [h1]
      · exact ih p h2
    · rw [if_neg hc] at hp
      cases h : splitOnChar sep rest with
      | nil => exact absurd h (splitOnChar_ne_nil sep rest)
      | cons hd tl =>
        rw [h] at hp
        rcases List.mem_cons.mp hp with h1 | h2
        · subst h1
          intro hmem
          rcases List.mem_cons.mp hmem with h3 | h4
          · exact hc h3.symm
          · exact ih hd (h ▸ List.mem_cons_self hd tl) h4
        · exact ih p (h ▸ List.mem_cons_of_mem hd h2)

theorem splitOnChar_append (sep : Char) (a rest : List Char) (ha : sep ∉ a) :
    splitOnChar sep (a ++ sep :: rest) = a :: splitOnChar sep rest := by
  induction a with
  | nil => simp [splitOnChar]
  | cons x a' ih =>
    have hx : x ≠ sep := fun h => ha (h ▸ List.mem_cons_self x a')
    have ha' : sep ∉ a' := fun h => ha (List.mem_cons_of_mem x h)
    simp only [List.cons_append, splitOnChar, if_neg hx]
    rw [show a'.append (sep :: rest) = a' ++ sep :: rest from rfl, ih ha']

theorem splitOnChar_no_sep (sep : Char) (d : List Char) (hd : sep ∉ d) :
    splitOnChar sep d = [d] := by
  induction d with
  | nil => rfl
  | cons c d' ih =>
    have hc : c ≠ sep := fun h => hd (h ▸ List.mem_cons_self c d')
    have hd' : sep ∉ d' := fun h => hd (List.mem_cons_of_mem c h)
    simp only [splitOnChar, if_neg hc]
    rw [ih hd']

theorem segOk_iff_segSpec (p : List Char) : segOk p = true ↔ segSpec p := by
  unfold segOk segSpec
  cases h : pyIntList p with
  | none => simp
  | some n =>
    simp only [Bool.and_eq_true, decide_eq_true_eq, Option.some.injEq]
    constructor
    · rintro ⟨h1, h2⟩
      exact ⟨n, rfl, h1, h2⟩
    · rintro ⟨m, hm, h1, h2⟩
      subst hm
      exact ⟨h1, h2⟩

/-- C1: `is_valid_ip` returns true if and only if the string splits into exactly
four dot-separated segments, each parseable as a base-10 integer in `[0, 255]`,
the string containing no characters other than those segments and the three
dots; any other shape returns false.  The Lean model is a total function, so no
error is raised for any input (the Python `try/except ValueError` makes the
source total as well). -/
theorem is_valid_ip_correct (s : String) : is_valid_ip s = true ↔ valid_ip_spec s := by
  constructor
  · intro h
    have hlen : (splitOnChar '.' s.data).length = 4 := by
      by_contra hlen
      simp only [is_valid_ip, if_pos hlen] at h
      exact Bool.noConfusion h
    have hall : (splitOnChar '.' s.data).all segOk = true := by
      have hne : ¬(splitOnChar '.' s.data).length ≠ 4 := by simp [hlen]
      simp only [is_valid_ip, if_neg hne] at h
      exact h
    cases hsplit : splitOnChar '.' s.data with
    | nil => rw [hsplit] at hlen; simp at hlen
    | cons a t1 =>
      cases t1 with
      | nil => rw [hsplit] at hlen; simp at hlen
      | cons b t2 =>
        cases t2 with
        | nil => rw [hsplit] at hlen; simp at hlen
        | cons c t3 =>
          cases t3 with
          | nil => rw [hsplit] at hlen; simp at hlen
          | cons d t4 =>
            cases t4 with
            | cons e t5 =>
              rw [hsplit] at hlen
              simp only [List.length_cons] at hlen
              omega
            | nil =>
              rw [hsplit] at hall
              simp only [List.all_cons, List.all_nil, Bool.and_eq_true, Bool.and_true] at hall
              obtain ⟨hA, hB, hC, hD⟩ := hall
              have hjoin := joinSep_splitOnChar '.' s.data
              rw [hsplit] at hjoin
              simp only [joinSep] at hjoin
              have hmem := splitOnChar_not_mem '.' s.data
              rw [hsplit] at hmem
              refine ⟨a, b, c, d, hjoin.symm, ?_, ?_, ?_, ?_, ?_⟩
              · exact ⟨hmem a (by simp), hmem b (by simp), hmem c (by simp), hmem d (by simp)⟩
              · exact (segOk_iff_segSpec a).mp hA
              · exact (segOk_iff_segSpec b).mp hB
              · exact (segOk_iff_segSpec c).mp hC
              · exact (segOk_iff_segSpec d).mp hD
  · rintro ⟨a, b, c, d, hdecomp, ⟨hna, hnb, hnc, hnd⟩, hsa, hsb, hsc, hsd⟩
    have hsplit : splitOnChar '.' s.data = [a, b, c, d] := by
      rw [hdecomp]
      rw [splitOnChar_append '.' a _ hna, splitOnChar_append '.' b _ hnb,
          splitOnChar_append '.' c _ hnc, splitOnChar_no_sep '.' d hnd]
    have hne : ¬(splitOnChar '.' s.data).length ≠ 4 := by rw [hsplit]; simp
    simp only [is_valid_ip, if_neg hne]
    rw [hsplit]
    simp only [List.all_cons, List.all_nil, Bool.and_eq_true, Bool.and_true]
    exact ⟨(segOk_iff_segSpec a).mpr hsa, (segOk_iff_segSpec b).mpr hsb,
           (segOk_iff_segSpec c).mpr hsc, (segOk_iff_segSpec d).mpr hsd⟩

theorem get_ip_info_no_typing (fetch : Except PyErr (List (String × JVal))) (ip : JVal) :
    Event.typing ∉ (get_ip_info fetch ip).1 := by
  rcases fetch with e | resp
  · cases e <;> simp [get_ip_info, get_ip_info_run]
  · by_cases hfail : jget resp "status" = some (JVal.jstr "fail")
    · simp [get_ip_info, get_ip_info_run, get_ip_info_body, hfail]
    · by_cases hco : (pytruthy (jget resp "lat") && pytruthy (jget resp "lon")) = true
      · rcases hl : jitem resp "lat" with e | vl <;>
        rcases hlo : jitem resp "lon" with e2 | vlo <;>
        rcases hq : jitem resp "query" with e3 | vq <;>
        · first
          | (cases e <;> simp [get_ip_info, get_ip_info_run, get_ip_info_body, hfail, hco, hl, hlo, hq])
          | (cases e2 <;> simp [get_ip_info, get_ip_info_run, get_ip_info_body, hfail, hco, hl, hlo, hq])
          | (cases e3 <;> simp [get_ip_info, get_ip_info_run, get_ip_info_body, hfail, hco, hl, hlo, hq])
          | simp [get_ip_info, get_ip_info_run, get_ip_info_body, hfail, hco, hl, hlo, hq]
      · simp [get_ip_info, get_ip_info_run, get_ip_info_body, hfail, hco]

theorem get_ip_info_save (fetch : Except PyErr (List (String × JVal))) (ip : JVal) (fn : String)
    (h : Event.saveFile fn ∈ (get_ip_info fetch ip).1) :
    ∃ data q, (get_ip_info fetch ip).2 = (some data, some (JVal.jstr fn)) ∧
      fn = "ip_map_" ++ pyStr q ++ ".html" := by
  rcases fetch with e | resp
  · cases e <;> simp [get_ip_info, get_ip_info_run] at h
  · by_cases hfail : jget resp "status" = some (JVal.jstr "fail")
    · simp [get_ip_info, get_ip_info_run, get_ip_info_body, hfail] at h
    · by_cases hco : (pytruthy (jget resp "lat") && pytruthy (jget resp "lon")) = true
      · rcases hl : jitem resp "lat" with e | vl
        · cases e <;> simp [get_ip_info, get_ip_info_run, get_ip_info_body, hfail, hco, hl] at h
        · rcases hlo : jitem resp "lon" with e2 | vlo
          · cases e2 <;> simp [get_ip_info, get_ip_info_run, get_ip_info_body, hfail, hco, hl, hlo] at h
          · rcases hq : jitem resp "query" with e3 | vq
            · cases e3 <;> simp [get_ip_info, get_ip_info_run, get_ip_info_body, hfail, hco, hl, hlo, hq] at h
            · simp [get_ip_info, get_ip_info_run, get_ip_info_body, hfail, hco, hl, hlo, hq] at h
              subst h
              refine ⟨buildData resp, vq, ?_, rfl⟩
              simp [get_ip_info, get_ip_info_run, get_ip_info_body, hfail, hco, hl, hlo, hq]
      · simp [get_ip_info, get_ip_info_run, get_ip_info_body, hfail, hco] at h

theorem saveFile_not_mem_cleanup (fs : List String) (g fn : String) :
    Event.saveFile g ∉ cleanupEvents fs fn := by
  unfold cleanupEvents
  split <;> simp

theorem not_mem_applyEvents_cleanup (fs : List String) (fn : String) :
    fn ∉ applyEvents fs (cleanupEvents fs fn) := by
  unfold cleanupEvents
  by_cases h : fn ∈ fs
  · simp only [if_pos h, applyEvents, List.foldl_cons, List.foldl_nil, applyEvent]
    simp [List.mem_filter]
  · simp only [if_neg h, applyEvents, List.foldl_nil]
    exact h

theorem mapFilename_ne_empty (s : String) : ("ip_map_" ++ s ++ ".html") ≠ "" := by
  intro h
  have hlen : ("ip_map_" ++ s ++ ".html").length = 0 := by rw [h]; rfl
  simp only [String.length_append] at hlen
  have h7 : String.length "ip_map_" = 7 := rfl
  have h5 : String.length ".html" = 5 := rfl
  omega

theorem pytruthy_eq_true (o : Option JVal) (h : pytruthy o = true) :
    ∃ v, o = some v ∧ jtruthy v = true := by
  cases o with
  | none => simp [pytruthy] at h
  | some v => exact ⟨v, rfl, h⟩

theorem get_ip_info_snd_indep (fetch : Except PyErr (List (String × JVal))) (ip ip2 : JVal) :
    (get_ip_info fetch ip).2 = (get_ip_info fetch ip2).2 := by
  unfold get_ip_info
  cases get_ip_info_run fetch with
  | ok v => rfl
  | error e => cases e <;> rfl

theorem process_ip_request_allOk_raised (fetch : Except PyErr (List (String × JVal)))
    (ip : JVal) (fs0 : List String) :
    (process_ip_request allOk fetch ip fs0).raised = none := by
  rcases hr2 : (get_ip_info fetch ip).2 with ⟨_ | data, mfn⟩
  · simp [process_ip_request, allOk, hr2, answerOr]
  · by_cases hm : pytruthy mfn <;> simp [process_ip_request, allOk, hr2, hm, answerOr]

theorem string_data_append (a b : String) : (a ++ b).data = a.data ++ b.data := rfl

theorem geoUrl_ne_ipifyUrl (v : JVal) : geoUrl v ≠ ipifyUrl := by
  intro h
  have hd : ("http://ip-api.com/json/" ++ pyStr v).data = ipifyUrl.data :=
    congrArg String.data h
  rw [string_data_append] at hd
  have htake := congrArg (List.take 23) hd
  rw [show (23 : Nat) = ("http://ip-api.com/json/").data.length from rfl,
      List.take_left] at htake
  exact absurd htake (by decide)

theorem typing_count_zero_cleanup (fs : List String) (fn : String) :
    (cleanupEvents fs fn).count Event.typing = 0 := by
  unfold cleanupEvents
  split <;> simp

/-! ## Claim theorems -/

/-- C2 counterexample: a successful response in which both the `lat` and `lon`
fields are PRESENT (lat is the number 0) yet `get_ip_info` returns the record
with an ABSENT map filename — the code tests Python truthiness
(`if response.get('lat') and response.get('lon')`), not presence, and `0` is
falsy.  This refutes the claim that presence of both coordinates suffices for a
map artifact. -/
theorem present_zero_coords_no_map :
    (jget respZeroLat "lat").isSome = true ∧ (jget respZeroLat "lon").isSome = true ∧
    jget respZeroLat "status" ≠ some (JVal.jstr "fail") ∧
    ((get_ip_info (Except.ok respZeroLat) (JVal.jstr "1.1.1.1")).2.1).isSome = true ∧
    (get_ip_info (Except.ok respZeroLat) (JVal.jstr "1.1.1.1")).2.2 = none := by
  decide

/-- C2 (amended): for every successful geo-lookup response (fetch succeeded and
status is not "fail"), if both coordinates are present AND truthy (non-zero,
non-null) and the echoed `query` field is present, `get_ip_info` produces a map
artifact (a `saveFile` event) and returns a non-absent filename together with
the record; if either coordinate is absent or falsy it returns the record
together with the absent-filename marker `none`, which is distinct from an
error string (errors are carried as `some` values with an absent record). -/
theorem get_ip_info_map_amended (resp : List (String × JVal)) (ip : JVal)
    (hstatus : jget resp "status" ≠ some (JVal.jstr "fail")) :
    (pytruthy (jget resp "lat") = true → pytruthy (jget resp "lon") = true →
      (jget resp "query").isSome = true →
      ∃ fn, (get_ip_info (Except.ok resp) ip).2 = (some (buildData resp), some (JVal.jstr fn)) ∧
        Event.saveFile fn ∈ (get_ip_info (Except.ok resp) ip).1) ∧
    ((pytruthy (jget resp "lat") = false ∨ pytruthy (jget resp "lon") = false) →
      (get_ip_info (Except.ok resp) ip).2 = (some (buildData resp), none)) := by
  constructor
  · intro hlat hlon hq
    obtain ⟨vl, hvl, htl⟩ := pytruthy_eq_true _ hlat
    obtain ⟨vlo, hvlo, htlo⟩ := pytruthy_eq_true _ hlon
    obtain ⟨vq, hvq⟩ := Option.isSome_iff_exists.mp hq
    refine ⟨"ip_map_" ++ pyStr vq ++ ".html", ?_, ?_⟩ <;>
      simp [get_ip_info, get_ip_info_run, get_ip_info_body, hstatus, hlat, hlon,
        jitem, hvl, hvlo, hvq, pytruthy, htl, htlo]
  · intro hor
    have hco : (pytruthy (jget resp "lat") && pytruthy (jget resp "lon")) = false := by
      rcases hor with h | h <;> simp [h]
    simp [get_ip_info, get_ip_info_run, get_ip_info_body, hstatus, hco]

/-- C3: for every run of `process_ip_request` (over any chat-transport
behaviour `env`, any fetch outcome, any initial filesystem), if a map artifact
file was saved during the run, that file is no longer on disk when the handler
finishes — the `try/finally` deletes it on every exit path, including the paths
where sending the text message or the attachment raises. -/
theorem artifact_removed (env : TgEnv) (fetch : Except PyErr (List (String × JVal)))
    (ip : JVal) (fs0 : List String) (fn : String)
    (hsave : Event.saveFile fn ∈ (process_ip_request env fetch ip fs0).events) :
    fn ∉ (process_ip_request env fetch ip fs0).fs := by
  by_cases ht : env.typing_ok
  case neg => simp [process_ip_request, ht] at hsave
  case pos =>
    rcases hr2 : (get_ip_info fetch ip).2 with ⟨_ | data, mfn⟩
    · exfalso
      by_cases ha : env.text_ok (errText mfn) <;>
      · simp [process_ip_request, ht, hr2, answerOr, ha] at hsave
        obtain ⟨d, q, heq, -⟩ := get_ip_info_save fetch ip fn hsave
        rw [hr2] at heq
        exact Option.noConfusion (Prod.ext_iff.mp heq).1
    · by_cases hm : pytruthy mfn
      · by_cases ha : env.text_ok (info_text data) <;> by_cases hd : env.doc_ok (pyStrOpt mfn) <;>
        · simp [process_ip_request, ht, hr2, hm, ha, hd, saveFile_not_mem_cleanup] at hsave ⊢
          obtain ⟨d, q, heq, -⟩ := get_ip_info_save fetch ip fn hsave
          rw [hr2] at heq
          have hmfn : mfn = some (JVal.jstr fn) := (Prod.ext_iff.mp heq).2
          rw [hmfn]
          simpa using not_mem_applyEvents_cleanup
            (applyEvents fs0 (Event.typing :: (get_ip_info fetch ip).1)) fn
      · exfalso
        by_cases ha : env.text_ok (info_text data ++ mapWarn) <;>
        · simp [process_ip_request, ht, hr2, hm, answerOr, ha] at hsave
          obtain ⟨d, q, heq, hpat⟩ := get_ip_info_save fetch ip fn hsave
          rw [hr2] at heq
          have hmfn : mfn = some (JVal.jstr fn) := (Prod.ext_iff.mp heq).2
          rw [hmfn] at hm
          simp [pytruthy, jtruthy] at hm
          exact mapFilename_ne_empty (pyStr q) (hpat ▸ hm)

/-- C4: `get_ip_info` never returns a record together with a failure.  When the
provider reports failure status the result is (absent record, the provider's
message, or "Unknown error" when no message field is present); on a
network-level error it is (absent record, the network-error message wrapping
the underlying error); on any other exception during processing (modelled here
both for a non-request fetch exception and for the `KeyError` raised by
`response['query']` when the field is missing) it is (absent record, the
generic error message wrapping the underlying error).  In every case the
record component is `none`. -/
theorem get_ip_info_failure_cases (ip : JVal) :
    (∀ e, (get_ip_info (Except.error (PyErr.requestException e)) ip).2
        = (none, some (JVal.jstr (netErrMsg e)))) ∧
    (∀ e, (∀ m, e ≠ PyErr.requestException m) →
      (get_ip_info (Except.error e) ip).2
        = (none, some (JVal.jstr (genErrMsg (PyErr.str e))))) ∧
    (∀ resp, jget resp "status" = some (JVal.jstr "fail") →
      (get_ip_info (Except.ok resp) ip).2
        = (none, some ((jget resp "message").getD (JVal.jstr "Unknown error")))) ∧
    (∀ resp, jget resp "status" ≠ some (JVal.jstr "fail") →
      pytruthy (jget resp "lat") = true → pytruthy (jget resp "lon") = true →
      jget resp "query" = none →
      (get_ip_info (Except.ok resp) ip).2
        = (none, some (JVal.jstr (genErrMsg "'query'")))) := by
  refine ⟨?_, ?_, ?_, ?_⟩
  · intro e
    simp [get_ip_info, get_ip_info_run]
  · intro e he
    cases e with
    | requestException m => exact absurd rfl (he m)
    | keyError k => simp [get_ip_info, get_ip_info_run, PyErr.str]
    | otherException m => simp [get_ip_info, get_ip_info_run, PyErr.str]
  · intro resp hfail
    simp [get_ip_info, get_ip_info_run, get_ip_info_body, hfail]
  · intro resp hfail hlat hlon hq
    obtain ⟨vl, hvl, htl⟩ := pytruthy_eq_true _ hlat
    obtain ⟨vlo, hvlo, htlo⟩ := pytruthy_eq_true _ hlon
    simp [get_ip_info, get_ip_info_run, get_ip_info_body, hfail, hlat, hlon,
      jitem, hvl, hvlo, hq, pytruthy, htl, htlo, PyErr.str]

/-- C5: for every inbound message and every possible failure of the outbound
HTTP calls (geo-lookup fetch: any exception; self-IP fetch: any of its possible
exceptions, which are all `RequestException`s, JSON decoding included), no
exception propagates uncaught out of `cmd_my_ip`, `process_ip`,
`process_ip_request`, or the dispatched `handleMessage`: each returns normally
(`raised = none`).  Chat-transport sends are not outbound calls in the claim's
list, so the environment is the all-succeeding `allOk`. -/
theorem no_uncaught_exceptions (ipifyFetch geoFetch : Except PyErr (List (String × JVal)))
    (ip : JVal) (text : String) (inbound : Option String) (fs0 : List String)
    (hp : fetchPossible ipifyFetch) :
    (process_ip_request allOk geoFetch ip fs0).raised = none ∧
    (process_ip allOk geoFetch text fs0).raised = none ∧
    (cmd_my_ip allOk ipifyFetch geoFetch fs0).raised = none ∧
    (handleMessage allOk ipifyFetch geoFetch inbound fs0).raised = none := by
  have hcmd : (cmd_my_ip allOk ipifyFetch geoFetch fs0).raised = none := by
    rcases hf : ipifyFetch with e | resp
    · obtain ⟨m, hm⟩ := hp e hf
      subst hm
      subst hf
      simp [cmd_my_ip, allOk, answerOr]
    · subst hf
      cases hip : jget resp "ip" with
      | none => simp [cmd_my_ip, allOk, hip, answerOr]
      | some v =>
        by_cases htr : jtruthy v
        · simp only [cmd_my_ip, hip, htr, if_true]
          exact process_ip_request_allOk_raised geoFetch v fs0
        · simp [cmd_my_ip, allOk, hip, htr, answerOr]
  refine ⟨process_ip_request_allOk_raised geoFetch ip fs0,
          process_ip_request_allOk_raised geoFetch _ fs0, hcmd, ?_⟩
  cases hd : dispatch inbound with
  | none => simp [handleMessage, hd]
  | some hid =>
    cases hid
    · simp [handleMessage, hd, allOk, answerOr]
    · simp [handleMessage, hd, allOk, answerOr]
    · simp only [handleMessage, hd]
      exact hcmd
    · simp only [handleMessage, hd, process_ip]
      exact process_ip_request_allOk_raised geoFetch _ fs0

/-- C6: on a "my ip" request, when the self-IP fetch raises a network error the
handler sends exactly one message — the manual-entry instruction — and never
calls the geo-lookup client (no `httpGet` of a `geoUrl` occurs); when the fetch
succeeds with a usable (truthy) `ip` field the handler proceeds exactly as a
lookup of that resolved value, and the geo-lookup client is invoked at exactly
that IP. -/
theorem cmd_my_ip_selfip (geoFetch : Except PyErr (List (String × JVal))) (fs0 : List String) :
    (∀ e, cmd_my_ip allOk (Except.error (PyErr.requestException e)) geoFetch fs0
        = ⟨[Event.httpGet ipifyUrl, Event.sendText manualMsg], fs0, none⟩ ∧
      (∀ v, Event.httpGet (geoUrl v) ∉
        (cmd_my_ip allOk (Except.error (PyErr.requestException e)) geoFetch fs0).events)) ∧
    (∀ resp v, jget resp "ip" = some v → jtruthy v = true →
      (cmd_my_ip allOk (Except.ok resp) geoFetch fs0).events
        = Event.httpGet ipifyUrl :: (process_ip_request allOk geoFetch v fs0).events ∧
      Event.httpGet (geoUrl v) ∈ (cmd_my_ip allOk (Except.ok resp) geoFetch fs0).events) := by
  constructor
  · intro e
    constructor
    · simp [cmd_my_ip, allOk, answerOr]
    · intro v
      simp [cmd_my_ip, allOk, answerOr, geoUrl_ne_ipifyUrl v]
  · intro resp v hip htr
    have hev : (cmd_my_ip allOk (Except.ok resp) geoFetch fs0).events
        = Event.httpGet ipifyUrl :: (process_ip_request allOk geoFetch v fs0).events := by
      simp [cmd_my_ip, hip, htr]
    refine ⟨hev, ?_⟩
    rw [hev]
    refine List.mem_cons_of_mem _ ?_
    have hmem : Event.httpGet (geoUrl v) ∈ (get_ip_info geoFetch v).1 := by
      unfold get_ip_info
      cases hrun : get_ip_info_run geoFetch with
      | ok p => simp
      | error e => cases e <;> simp
    rcases hr2 : (get_ip_info geoFetch v).2 with ⟨_ | data, mfn⟩
    · simp [process_ip_request, allOk, hr2, answerOr, hmem]
    · by_cases hm : pytruthy mfn <;>
        simp [process_ip_request, allOk, hr2, hm, answerOr, hmem]

/-- C7: for every lookup reaching `process_ip_request` that yields a record
(all sends succeeding), the handler emits exactly one typing indicator, as the
first event (before the lookup); then, if a map filename was produced, the
trace is exactly the info text as one message followed by the artifact as a
document with the caption (no warning suffix) followed by the cleanup; if no
filename was produced, the trace is exactly one text message with the warning
suffix appended and no document — so never both a warning suffix and an
attachment. -/
theorem process_ip_request_reply_shape (fetch : Except PyErr (List (String × JVal)))
    (ip : JVal) (fs0 : List String) (data : List (String × Option JVal)) (mfn : Option JVal)
    (hr : (get_ip_info fetch ip).2 = (some data, mfn)) :
    (process_ip_request allOk fetch ip fs0).events.head? = some Event.typing ∧
    (process_ip_request allOk fetch ip fs0).events.count Event.typing = 1 ∧
    (pytruthy mfn = true →
      (process_ip_request allOk fetch ip fs0).events
        = Event.typing :: (get_ip_info fetch ip).1 ++
            [Event.sendText (info_text data), Event.sendDoc (pyStrOpt mfn) docCaption] ++
            cleanupEvents (applyEvents fs0 (Event.typing :: (get_ip_info fetch ip).1))
              (pyStrOpt mfn)) ∧
    (pytruthy mfn = false →
      (process_ip_request allOk fetch ip fs0).events
        = Event.typing :: (get_ip_info fetch ip).1
            ++ [Event.sendText (info_text data ++ mapWarn)]) := by
  have h0 : (get_ip_info fetch ip).1.count Event.typing = 0 :=
    List.count_eq_zero.mpr (get_ip_info_no_typing fetch ip)
  have hshape_t : pytruthy mfn = true →
      (process_ip_request allOk fetch ip fs0).events
        = Event.typing :: (get_ip_info fetch ip).1 ++
            [Event.sendText (info_text data), Event.sendDoc (pyStrOpt mfn) docCaption] ++
            cleanupEvents (applyEvents fs0 (Event.typing :: (get_ip_info fetch ip).1))
              (pyStrOpt mfn) := by
    intro hm
    simp [process_ip_request, allOk, hr, hm]
  have hshape_f : pytruthy mfn = false →
      (process_ip_request allOk fetch ip fs0).events
        = Event.typing :: (get_ip_info fetch ip).1
            ++ [Event.sendText (info_text data ++ mapWarn)] := by
    intro hm
    simp [process_ip_request, allOk, hr, hm, answerOr]
  refine ⟨?_, ?_, hshape_t, hshape_f⟩
  · by_cases hm : pytruthy mfn
    · rw [hshape_t hm]
      rfl
    · rw [hshape_f (by simpa using hm)]
      rfl
  · by_cases hm : pytruthy mfn
    · rw [hshape_t hm]
      simp [List.count_append, List.count_cons, h0, typing_count_zero_cleanup]
    · rw [hshape_f (by simpa using hm)]
      simp [List.count_append, List.count_cons, h0]

/-- C8 counterexample: looking up "8.8.8.8" against a response whose `query`
field is "9.9.9.9" produces the filename `ip_map_9.9.9.9.html`, not
`ip_map_8.8.8.8.html` — the filename is derived from `response['query']`, not
from the IP being looked up, refuting the claim as stated. -/
theorem map_filename_not_lookup_ip :
    (get_ip_info (Except.ok respEcho99) (JVal.jstr "8.8.8.8")).2.1.isSome = true ∧
    (get_ip_info (Except.ok respEcho99) (JVal.jstr "8.8.8.8")).2.2
      = some (JVal.jstr "ip_map_9.9.9.9.html") ∧
    "ip_map_9.9.9.9.html" ≠ "ip_map_8.8.8.8.html" := by
  decide

/-- C8 (amended): every produced artifact filename follows the pattern
`ip_map_<query>.html` where `<query>` is the provider response's echoed query
field; the filename is a deterministic function of the response alone (the same
response yields the same filename whatever IP argument was passed), and
whenever the provider echoes the looked-up IP — the normal ip-api behaviour —
the filename is `ip_map_<ip>.html` for the looked-up IP. -/
theorem map_filename_from_query (fetch : Except PyErr (List (String × JVal))) (ip : JVal)
    (data : List (String × Option JVal)) (fnv : JVal)
    (h : (get_ip_info fetch ip).2 = (some data, some fnv)) :
    ∃ resp q, fetch = Except.ok resp ∧ jget resp "query" = some q ∧
      fnv = JVal.jstr ("ip_map_" ++ pyStr q ++ ".html") ∧
      (∀ ip2 : JVal, (get_ip_info fetch ip2).2 = (some data, some fnv)) ∧
      (∀ s, q = JVal.jstr s → ip = JVal.jstr s →
        fnv = JVal.jstr ("ip_map_" ++ pyStr ip ++ ".html")) := by
  rcases hf : fetch with e | resp
  · rw [hf] at h
    cases e <;> simp [get_ip_info, get_ip_info_run] at h
  · rw [hf] at h
    by_cases hfail : jget resp "status" = some (JVal.jstr "fail")
    · simp [get_ip_info, get_ip_info_run, get_ip_info_body, hfail] at h
    · by_cases hco : (pytruthy (jget resp "lat") && pytruthy (jget resp "lon")) = true
      · rcases hl : jitem resp "lat" with e | vl
        · cases e <;> simp [get_ip_info, get_ip_info_run, get_ip_info_body, hfail, hco, hl] at h
        · rcases hlo : jitem resp "lon" with e2 | vlo
          · cases e2 <;>
              simp [get_ip_info, get_ip_info_run, get_ip_info_body, hfail, hco, hl, hlo] at h
          · rcases hq : jitem resp "query" with e3 | vq
            · cases e3 <;>
                simp [get_ip_info, get_ip_info_run, get_ip_info_body, hfail, hco, hl, hlo, hq] at h
            · have hjq : jget resp "query" = some vq := by
                unfold jitem at hq
                cases hg : jget resp "query" with
                | none => rw [hg] at hq; exact Except.noConfusion hq
                | some w =>
                  rw [hg] at hq
                  injection hq with hw
                  rw [hw]
              simp only [get_ip_info, get_ip_info_run, get_ip_info_body, hfail, hco, hl, hlo, hq,
                if_neg hfail] at h
              simp [hco] at h
              obtain ⟨hdata, hfnv⟩ := h
              refine ⟨resp, vq, rfl, hjq, hfnv.symm, ?_, ?_⟩
              · intro ip2
                rw [← get_ip_info_snd_indep (Except.ok resp) ip ip2]
                simp [get_ip_info, get_ip_info_run, get_ip_info_body, hfail, hco, hl, hlo, hq,
                  hdata, hfnv]
              · intro s hqs hips
                rw [hips, hfnv.symm, hqs]
      · simp [get_ip_info, get_ip_info_run, get_ip_info_body, hfail, hco] at h

/-- C9: an inbound text that is not the start command, not case-insensitively
"помощь" or "мой ip", and does not pass the IP validator matches no registered
handler: the message produces no events at all (no reply, no outbound call),
leaves the filesystem unchanged, and raises nothing. -/
theorem unmatched_text_ignored (env : TgEnv)
    (ipifyFetch geoFetch : Except PyErr (List (String × JVal))) (fs0 : List String) (t : String)
    (h1 : isStartCommand t = false) (h2 : pyLower t ≠ "помощь")
    (h3 : pyLower t ≠ "мой ip") (h4 : is_valid_ip t = false) :
    handleMessage env ipifyFetch geoFetch (some t) fs0 = ⟨[], fs0, none⟩ := by
  have hd : dispatch (some t) = none := by
    simp [dispatch, h1, h2, h3, h4]
  simp [handleMessage, hd]

/-- C10: on a "my ip" request whose self-IP fetch succeeds but whose JSON body
lacks a usable `ip` field (absent, null, or empty string), the handler sends
exactly one message — the could-not-determine reply, which is distinct from the
network-failure manual-entry reply — and never calls the geo-lookup client. -/
theorem cmd_my_ip_unusable_ip (geoFetch : Except PyErr (List (String × JVal)))
    (fs0 : List String) (resp : List (String × JVal))
    (h : jget resp "ip" = none ∨ jget resp "ip" = some JVal.jnull ∨
         jget resp "ip" = some (JVal.jstr "")) :
    cmd_my_ip allOk (Except.ok resp) geoFetch fs0
      = ⟨[Event.httpGet ipifyUrl, Event.sendText noIpMsg], fs0, none⟩ ∧
    noIpMsg ≠ manualMsg ∧
    (∀ v, Event.httpGet (geoUrl v) ∉ (cmd_my_ip allOk (Except.ok resp) geoFetch fs0).events) := by
  have heq : cmd_my_ip allOk (Except.ok resp) geoFetch fs0
      = ⟨[Event.httpGet ipifyUrl, Event.sendText noIpMsg], fs0, none⟩ := by
    rcases h with h | h | h <;> simp [cmd_my_ip, h, jtruthy, allOk, answerOr]
  refine ⟨heq, by decide, ?_⟩
  intro v
  rw [heq]
  simp [geoUrl_ne_ipifyUrl v]

/-! ## Witnesses -/

/-- Witness for C2 (amended) at the spec's example response. -/
theorem get_ip_info_map_amended_witness :
    ∃ fn, (get_ip_info (Except.ok respGood37) (JVal.jstr "8.8.8.8")).2
        = (some (buildData respGood37), some (JVal.jstr fn)) ∧
      Event.saveFile fn ∈ (get_ip_info (Except.ok respGood37) (JVal.jstr "8.8.8.8")).1 :=
  (get_ip_info_map_amended respGood37 (JVal.jstr "8.8.8.8") (by decide)).1
    (by decide) (by decide) (by decide)

/-- Witness for C3: a concrete run that saves the artifact and ends with it
absent from disk. -/
theorem artifact_removed_witness :
    Event.saveFile "ip_map_8.8.8.8.html"
      ∈ (process_ip_request allOk (Except.ok respGood37) (JVal.jstr "8.8.8.8") []).events ∧
    "ip_map_8.8.8.8.html"
      ∉ (process_ip_request allOk (Except.ok respGood37) (JVal.jstr "8.8.8.8") []).fs :=
  ⟨by decide, artifact_removed allOk (Except.ok respGood37) (JVal.jstr "8.8.8.8") []
      "ip_map_8.8.8.8.html" (by decide)⟩

/-- Witness for C4 at concrete inputs, including the spec's
status-fail/"invalid query" example. -/
theorem get_ip_info_failure_cases_witness :
    ((get_ip_info (Except.error (PyErr.requestException "timeout")) (JVal.jstr "1.2.3.4")).2
      = (none, some (JVal.jstr (netErrMsg "timeout")))) ∧
    ((get_ip_info (Except.error (PyErr.otherException "boom")) (JVal.jstr "1.2.3.4")).2
      = (none, some (JVal.jstr (genErrMsg "boom")))) ∧
    ((get_ip_info (Except.ok respFailW) (JVal.jstr "1.2.3.4")).2
      = (none, some (JVal.jstr "invalid query"))) ∧
    ((get_ip_info (Except.ok respNoQueryW) (JVal.jstr "1.2.3.4")).2
      = (none, some (JVal.jstr (genErrMsg "'query'")))) := by
  obtain ⟨w1, w2, w3, w4⟩ := get_ip_info_failure_cases (JVal.jstr "1.2.3.4")
  refine ⟨w1 "timeout", ?_, ?_, ?_⟩
  · exact w2 (PyErr.otherException "boom") (fun m => by simp)
  · exact (w3 respFailW (by decide)).trans (by decide)
  · exact w4 respNoQueryW (by decide) (by decide) (by decide) (by decide)

/-- Witness for C5 at concrete fetch outcomes. -/
theorem no_uncaught_exceptions_witness :
    (process_ip_request allOk (Except.ok respFailW) (JVal.jstr "1.2.3.4") []).raised = none ∧
    (process_ip allOk (Except.ok respFailW) "8.8.8.8" []).raised = none ∧
    (cmd_my_ip allOk (Except.error (PyErr.requestException "conn"))
        (Except.ok respFailW) []).raised = none ∧
    (handleMessage allOk (Except.error (PyErr.requestException "conn"))
        (Except.ok respFailW) (some "мой ip") []).raised = none :=
  no_uncaught_exceptions (Except.error (PyErr.requestException "conn")) (Except.ok respFailW)
    (JVal.jstr "1.2.3.4") "8.8.8.8" (some "мой ip") []
    (fun _e he => ⟨"conn", (Except.error.inj he).symm⟩)

/-- Witness for C6: the network-failure reply and a successful resolution. -/
theorem cmd_my_ip_selfip_witness :
    (cmd_my_ip allOk (Except.error (PyErr.requestException "conn")) (Except.ok respFailW) []
        = ⟨[Event.httpGet ipifyUrl, Event.sendText manualMsg], [], none⟩) ∧
    ((cmd_my_ip allOk (Except.ok respIpW) (Except.ok respFailW) []).events
        = Event.httpGet ipifyUrl
            :: (process_ip_request allOk (Except.ok respFailW) (JVal.jstr "8.8.8.8") []).events) ∧
    Event.httpGet (geoUrl (JVal.jstr "8.8.8.8"))
      ∈ (cmd_my_ip allOk (Except.ok respIpW) (Except.ok respFailW) []).events := by
  obtain ⟨w1, w2⟩ := cmd_my_ip_selfip (Except.ok respFailW) ([] : List String)
  obtain ⟨h2a, h2b⟩ := w2 respIpW (JVal.jstr "8.8.8.8") (by decide) (by decide)
  exact ⟨(w1 "conn").1, h2a, h2b⟩

/-- Witness for C7 at the spec's example response (map case). -/
theorem process_ip_request_reply_shape_witness :
    (process_ip_request allOk (Except.ok respGood37) (JVal.jstr "8.8.8.8") []).events.head?
      = some Event.typing ∧
    (process_ip_request allOk (Except.ok respGood37) (JVal.jstr "8.8.8.8") []).events.count
        Event.typing = 1 ∧
    (process_ip_request allOk (Except.ok respGood37) (JVal.jstr "8.8.8.8") []).events
      = Event.typing :: (get_ip_info (Except.ok respGood37) (JVal.jstr "8.8.8.8")).1 ++
          [Event.sendText (info_text (buildData respGood37)),
           Event.sendDoc (pyStrOpt (some (JVal.jstr "ip_map_8.8.8.8.html"))) docCaption] ++
          cleanupEvents
            (applyEvents []
              (Event.typing :: (get_ip_info (Except.ok respGood37) (JVal.jstr "8.8.8.8")).1))
            (pyStrOpt (some (JVal.jstr "ip_map_8.8.8.8.html"))) := by
  obtain ⟨h1, h2, h3, h4⟩ := process_ip_request_reply_shape (Except.ok respGood37)
    (JVal.jstr "8.8.8.8") [] (buildData respGood37)
    (some (JVal.jstr "ip_map_8.8.8.8.html")) (by decide)
  exact ⟨h1, h2, h3 (by decide)⟩

/-- Witness for C8 (amended) at a concrete echoing response. -/
theorem map_filename_from_query_witness :
    ∃ resp q, (Except.ok respGood37 : Except PyErr (List (String × JVal))) = Except.ok resp ∧
      jget resp "query" = some q ∧
      JVal.jstr "ip_map_8.8.8.8.html" = JVal.jstr ("ip_map_" ++ pyStr q ++ ".html") ∧
      (∀ ip2 : JVal, (get_ip_info (Except.ok respGood37) ip2).2
        = (some (buildData respGood37), some (JVal.jstr "ip_map_8.8.8.8.html"))) ∧
      (∀ s, q = JVal.jstr s → JVal.jstr "8.8.8.8" = JVal.jstr s →
        JVal.jstr "ip_map_8.8.8.8.html"
          = JVal.jstr ("ip_map_" ++ pyStr (JVal.jstr "8.8.8.8") ++ ".html")) :=
  map_filename_from_query (Except.ok respGood37) (JVal.jstr "8.8.8.8")
    (buildData respGood37) (JVal.jstr "ip_map_8.8.8.8.html") (by decide)

/-- Witness for C9 at the spec's example "not an ip". -/
theorem unmatched_text_ignored_witness :
    handleMessage allOk (Except.ok respIpW) (Except.ok respFailW) (some "not an ip") []
      = ⟨[], [], none⟩ :=
  unmatched_text_ignored allOk (Except.ok respIpW) (Except.ok respFailW) [] "not an ip"
    (by decide) (by decide) (by decide) (by decide)

/-- Witness for C10 with an empty `ip` field. -/
theorem cmd_my_ip_unusable_ip_witness :
    cmd_my_ip allOk (Except.ok respEmptyIpW) (Except.ok respFailW) []
      = ⟨[Event.httpGet ipifyUrl, Event.sendText noIpMsg], [], none⟩ ∧
    noIpMsg ≠ manualMsg ∧
    (∀ v, Event.httpGet (geoUrl v)
      ∉ (cmd_my_ip allOk (Except.ok respEmptyIpW) (Except.ok respFailW) []).events) :=
  cmd_my_ip_unusable_ip (Except.ok respFailW) [] respEmptyIpW (Or.inr (Or.inr (by decide)))
